import Mathlib

/-!
Verification of the consumer-side delivery pipeline of the TestingDemo
repository (RabbitMQ consumer relaying business events to a CRM system).

The embedding follows the TypeScript source:
 - `RabbitMQConsumer.processMessage`, `handleMessage`, `sendToDLQ`
   (consumer module);
 - `isMessageProcessed`, `markMessageProcessed`, `getMessageStatus`
   (`src/utils/idempotency.ts`);
 - `config.rabbitmq` (`src/config/index.ts`);
 - `RabbitMQProducer.sendMessage` (`src/rabbitmq/producer.ts`), whose
   serialization is `JSON.stringify`.

Channel interactions (ack, nack, publish), CRM adapter calls and ledger
writes are recorded as an explicit list of effects; the deduplication
ledger (a `Map<string, ProcessedMessage>` in the source) is threaded as
explicit state with last-write-wins insertion.
-/

namespace TestingDemo

/-- A JSON value, the wire format of queue messages.  Order and customer
payloads are carried opaquely as JSON, exactly as the consumer treats
them (it forwards `payload.order` / `payload.customer` unchanged). -/
inductive Json where
  | str (s : String)
  | num (n : Int)
  | bool (b : Bool)
  | null
  | arr (elems : List Json)
  | obj (fields : List (String × Json))

/-- Field lookup in a JSON object; `none` on non-objects. -/
def jsonField (j : Json) (key : String) : Option Json :=
  match j with
  | .obj fields => fields.lookup key
  | _ => none

/-- The payload of a message: at most one of an order or a customer
object, per the wire format `payload: \x7b "customer"?: ..., "order"?: ... \x7d`. -/
structure Payload where
  order : Option Json
  customer : Option Json

/-- The `RabbitMQMessage` envelope.  `event` is a plain string (the wire
carries a string; the consumer switches on it and treats unknown values
as errors); `retryCount` is optional, absent on first publication. -/
structure RabbitMQMessage where
  messageId : String
  event : String
  payload : Payload
  timestamp : String
  retryCount : Option Nat

/-- Terminal status recorded in the deduplication ledger
(string literals `success` / `failed` in the source). -/
inductive Status where
  | success
  | failed
deriving DecidableEq

/-- A `ProcessedMessage` record of the deduplication ledger
(`src/utils/idempotency.ts`). -/
structure ProcessedMessage where
  messageId : String
  processedAt : String
  status : Status
  error : Option String
deriving DecidableEq

/-- The deduplication ledger, a `Map<string, ProcessedMessage>` keyed by
message id, embedded as an association list read through `List.lookup`. -/
abbrev Ledger := List (String × ProcessedMessage)

/-- `isMessageProcessed` from `src/utils/idempotency.ts`:
`processedMessages.has(messageId)`. -/
def isMessageProcessed (ledger : Ledger) (messageId : String) : Bool :=
  (ledger.lookup messageId).isSome

/-- `markMessageProcessed` from `src/utils/idempotency.ts`: builds the
record with the completion timestamp `now` and inserts it with
`Map.set` semantics (last write wins). -/
def markMessageProcessed (ledger : Ledger) (messageId : String)
    (status : Status) (error : Option String) (now : String) : Ledger :=
  (messageId,
    { messageId := messageId, processedAt := now, status := status,
      error := error }) :: ledger.filter (fun p => p.1 != messageId)

/-- `getMessageStatus` from `src/utils/idempotency.ts`:
`processedMessages.get(messageId)`. -/
def getMessageStatus (ledger : Ledger) (messageId : String) :
    Option ProcessedMessage :=
  ledger.lookup messageId

/-- A call to the `SalesforceService` CRM adapter
(`createOrUpdateOrder` / `createOrUpdateCustomer` in
`src/services/salesforce.ts`), carrying the opaque payload object. -/
inductive CrmCall where
  | createOrUpdateOrder (order : Json)
  | createOrUpdateCustomer (customer : Json)

/-- One observable side effect of processing a delivery: channel
acknowledgements, queue publishes (queue name, JSON body, persistent
flag), CRM adapter calls, and deduplication-ledger writes. -/
inductive Effect where
  | ack
  | nack (requeue : Bool)
  | publish (queue : String) (body : Json) (persistent : Bool)
  | crmCall (call : CrmCall)
  | ledgerWrite (messageId : String) (status : Status) (error : Option String)

/-- The `config.rabbitmq` section consumed by the pipeline
(`src/config/index.ts`). -/
structure Config where
  queue : String
  dlq : String
  maxRetries : Nat

/-- The default configuration values from `src/config/index.ts`:
queue `orders_queue`, DLQ `orders_dlq`, `maxRetries = 3`. -/
def config : Config :=
  { queue := "orders_queue", dlq := "orders_dlq", maxRetries := 3 }

/-- The JSON fields of a message as serialized by `JSON.stringify`
(producer `sendMessage` and the retry republish): `retryCount` is
omitted when unset, since `JSON.stringify` drops `undefined` fields. -/
def messageFields (m : RabbitMQMessage) : List (String × Json) :=
  [("messageId", Json.str m.messageId),
   ("event", Json.str m.event),
   ("payload", Json.obj
     ((match m.payload.order with
       | none => []
       | some o => [("order", o)]) ++
      (match m.payload.customer with
       | none => []
       | some c => [("customer", c)]))),
   ("timestamp", Json.str m.timestamp)] ++
  (match m.retryCount with
   | none => []
   | some k => [("retryCount", Json.num (Int.ofNat k))])

/-- `JSON.stringify(message)` as a JSON value. -/
def encodeMessage (m : RabbitMQMessage) : Json :=
  Json.obj (messageFields m)

/-- Modelled from the spec: the repository's `src/types/message.ts` is
not present under `src/`, so decoding follows the spec's wire format
(section 6, exact field set) — strings for `messageId`, `event`,
`timestamp`, an object payload with optional `order` / `customer`
members, and an optional non-negative integer `retryCount`. -/
def decodeMessage (j : Json) : Option RabbitMQMessage :=
  match j with
  | .obj fields =>
    match fields.lookup "messageId", fields.lookup "event",
          fields.lookup "timestamp", fields.lookup "payload" with
    | some (.str id), some (.str ev), some (.str ts), some (.obj pf) =>
      let payload : Payload :=
        { order := pf.lookup "order", customer := pf.lookup "customer" }
      match fields.lookup "retryCount" with
      | none =>
        some { messageId := id, event := ev, payload := payload,
               timestamp := ts, retryCount := none }
      | some (.num (Int.ofNat k)) =>
        some { messageId := id, event := ev, payload := payload,
               timestamp := ts, retryCount := some k }
      | some _ => none
    | _, _, _, _ => none
  | _ => none

/-- The DLQ envelope built by `sendToDLQ`:
`\x7b ...message, dlqReason: error, dlqTimestamp: new Date().toISOString() \x7d`. -/
def dlqMessage (m : RabbitMQMessage) (error : String) (now : String) : Json :=
  Json.obj (messageFields m ++
    [("dlqReason", Json.str error), ("dlqTimestamp", Json.str now)])

/-- A raw delivery as seen after `JSON.parse`: either the body failed to
parse (`JSON.parse` threw), or it parsed to a message envelope. -/
inductive Delivery where
  | unparsable
  | parsed (m : RabbitMQMessage)

/-- `RabbitMQConsumer.handleMessage`: switch on `event`; order events
dispatch `payload.order` to the CRM adapter when present (and silently
succeed when absent), customer events likewise with `payload.customer`;
any other event throws `Unknown event type`.  The adapter behaviour is
the parameter `crm`; the result pairs the CRM calls made with the
outcome. -/
def handleMessage (crm : CrmCall → Except String Unit)
    (m : RabbitMQMessage) : List Effect × Except String Unit :=
  if m.event = "CREATE_ORDER" ∨ m.event = "UPDATE_ORDER" then
    match m.payload.order with
    | some o =>
      ([Effect.crmCall (CrmCall.createOrUpdateOrder o)],
       crm (CrmCall.createOrUpdateOrder o))
    | none => ([], Except.ok ())
  else if m.event = "CREATE_CUSTOMER" ∨ m.event = "UPDATE_CUSTOMER" then
    match m.payload.customer with
    | some c =>
      ([Effect.crmCall (CrmCall.createOrUpdateCustomer c)],
       crm (CrmCall.createOrUpdateCustomer c))
    | none => ([], Except.ok ())
  else
    ([], Except.error ("Unknown event type: " ++ m.event))

/-- `RabbitMQConsumer.processMessage`: parse, nack unparsable bodies
without requeue; ack duplicates; otherwise dispatch, and on success mark
the ledger and ack, on failure either republish with the incremented
retry count and ack, or (retries exhausted) publish the DLQ envelope,
ack, and mark the ledger failed.  Returns the effects in program order
paired with the resulting ledger; `now` stands for
`new Date().toISOString()` at the terminal action. -/
def processMessage (cfg : Config) (crm : CrmCall → Except String Unit)
    (now : String) (ledger : Ledger) (d : Delivery) : List Effect × Ledger :=
  match d with
  | .unparsable => ([Effect.nack false], ledger)
  | .parsed m =>
    if isMessageProcessed ledger m.messageId then
      ([Effect.ack], ledger)
    else
      let handled := handleMessage crm m
      match handled.2 with
      | .ok _ =>
        (handled.1 ++
          [Effect.ledgerWrite m.messageId Status.success none, Effect.ack],
         markMessageProcessed ledger m.messageId Status.success none now)
      | .error e =>
        let retryCount := m.retryCount.getD 0 + 1
        if retryCount < cfg.maxRetries then
          (handled.1 ++
            [Effect.publish cfg.queue
              (encodeMessage { m with retryCount := some retryCount }) true,
             Effect.ack],
           ledger)
        else
          (handled.1 ++
            [Effect.publish cfg.dlq (dlqMessage m e now) true,
             Effect.ack,
             Effect.ledgerWrite m.messageId Status.failed (some e)],
           markMessageProcessed ledger m.messageId Status.failed (some e) now)

/-! ### Helper lemmas -/

/-- Decoding inverts encoding (shared helper for the round-trip and
injectivity arguments). -/
theorem decode_encode (m : RabbitMQMessage) :
    decodeMessage (encodeMessage m) = some m := by
  obtain ⟨id, ev, ⟨o, c⟩, ts, rc⟩ := m
  cases rc <;> cases o <;> cases c <;> rfl

/-- Encoding is injective on message envelopes. -/
theorem encodeMessage_injective : Function.Injective encodeMessage := by
  intro a b h
  have h1 := decode_encode a
  rw [h, decode_encode b] at h1
  exact (Option.some.inj h1).symm

/-- The dispatch step emits at most one effect, and it is a CRM call. -/
theorem handleMessage_effects_shape (crm : CrmCall → Except String Unit)
    (m : RabbitMQMessage) :
    (handleMessage crm m).1 = [] ∨
      ∃ c, (handleMessage crm m).1 = [Effect.crmCall c] := by
  unfold handleMessage
  split
  · split
    · exact Or.inr ⟨_, rfl⟩
    · exact Or.inl rfl
  · split
    · split
      · exact Or.inr ⟨_, rfl⟩
      · exact Or.inl rfl
    · exact Or.inl rfl

/-! ### Concrete sample data used by witnesses and counterexamples -/

/-- A CRM adapter that accepts every call. -/
def crmOk : CrmCall → Except String Unit := fun _ => Except.ok ()

/-- A CRM adapter that rejects every call with a fixed error. -/
def crmFail : CrmCall → Except String Unit :=
  fun _ => Except.error "CRM upsert failed"

/-- A well-formed CREATE_ORDER message on its first delivery. -/
def sampleOrderMessage : RabbitMQMessage :=
  { messageId := "m1", event := "CREATE_ORDER",
    payload := { order := some (Json.obj [("id", Json.str "O1")]),
                 customer := none },
    timestamp := "2024-01-01T00:00:00Z", retryCount := none }

/-- A CREATE_ORDER message whose payload carries no order object —
an event/payload mismatch. -/
def mismatchMessage : RabbitMQMessage :=
  { messageId := "m2", event := "CREATE_ORDER",
    payload := { order := none, customer := none },
    timestamp := "2024-01-01T00:00:00Z", retryCount := none }

/-! ### Claim theorems -/

/-- C9: encoding a message to the wire format and decoding it back
yields a value equal to the original in all fields, including absence of
`retryCount` whenever it was unset. -/
theorem message_roundtrip (m : RabbitMQMessage) :
    decodeMessage (encodeMessage m) = some m :=
  decode_encode m

/-- C5: a delivery whose body fails to parse is negatively acknowledged
with `requeue = false`, and the ledger is left unchanged (no entry is
created for any message id). -/
theorem unparsable_nacked_without_requeue (cfg : Config)
    (crm : CrmCall → Except String Unit) (now : String) (ledger : Ledger) :
    processMessage cfg crm now ledger Delivery.unparsable =
      ([Effect.nack false], ledger) :=
  rfl

/-- C3: a delivery whose message id already has a ledger record is
acknowledged immediately and has no other effect: no CRM call, no
publish, no ledger write, and the ledger is unchanged. -/
theorem duplicate_acked_with_no_other_effect (cfg : Config)
    (crm : CrmCall → Except String Unit) (now : String) (ledger : Ledger)
    (m : RabbitMQMessage)
    (hdup : isMessageProcessed ledger m.messageId = true) :
    processMessage cfg crm now ledger (Delivery.parsed m) =
      ([Effect.ack], ledger) := by
  simp [processMessage, hdup]

/-- Witness for C3 at a concrete ledger holding a Success record. -/
theorem duplicate_acked_with_no_other_effect_witness :
    processMessage config crmOk "2024-01-01T00:00:05Z"
      [("m1", { messageId := "m1", processedAt := "2024-01-01T00:00:01Z",
                status := Status.success, error := none })]
      (Delivery.parsed sampleOrderMessage) =
      ([Effect.ack],
       [("m1", { messageId := "m1", processedAt := "2024-01-01T00:00:01Z",
                 status := Status.success, error := none })]) :=
  duplicate_acked_with_no_other_effect config crmOk "2024-01-01T00:00:05Z"
    [("m1", { messageId := "m1", processedAt := "2024-01-01T00:00:01Z",
              status := Status.success, error := none })]
    sampleOrderMessage rfl

/-- C1: when dispatch of a decoded, not-yet-processed message fails and
the incoming `retryCount` (0 when absent) is below `maxRetries - 1`, the
pipeline republishes the full message to the primary queue with
`retryCount` set to exactly the incoming value plus 1, acknowledges the
original delivery, performs no DLQ publish and no ledger write (the
ledger is unchanged and the only effects besides the republish and the
ack are CRM calls). -/
theorem retry_republish_increments_and_acks (cfg : Config)
    (crm : CrmCall → Except String Unit) (now : String) (ledger : Ledger)
    (m : RabbitMQMessage) (hEffs : List Effect) (e : String)
    (hdup : isMessageProcessed ledger m.messageId = false)
    (hfail : handleMessage crm m = (hEffs, Except.error e))
    (hretry : m.retryCount.getD 0 + 1 < cfg.maxRetries) :
    processMessage cfg crm now ledger (Delivery.parsed m) =
      (hEffs ++
        [Effect.publish cfg.queue
          (encodeMessage { m with retryCount := some (m.retryCount.getD 0 + 1) })
          true,
         Effect.ack],
       ledger) ∧
    (∀ eff ∈ hEffs, ∃ c, eff = Effect.crmCall c) := by
  constructor
  · simp [processMessage, hdup, hfail, hretry]
  · intro eff heff
    rcases handleMessage_effects_shape crm m with hs | ⟨c, hs⟩ <;>
      rw [hfail] at hs <;> simp at hs <;> rw [hs] at heff
    · cases heff
    · simp at heff
      exact ⟨c, heff⟩

/-- Witness for C1: the sample order message on first delivery, with a
failing CRM adapter, is republished with `retryCount = 1` and acked. -/
theorem retry_republish_increments_and_acks_witness :
    processMessage config crmFail "T" [] (Delivery.parsed sampleOrderMessage) =
      ([Effect.crmCall (CrmCall.createOrUpdateOrder
          (Json.obj [("id", Json.str "O1")]))] ++
        [Effect.publish config.queue
          (encodeMessage { sampleOrderMessage with retryCount := some 1 }) true,
         Effect.ack],
       []) ∧
    (∀ eff ∈ [Effect.crmCall (CrmCall.createOrUpdateOrder
        (Json.obj [("id", Json.str "O1")]))], ∃ c, eff = Effect.crmCall c) :=
  retry_republish_increments_and_acks config crmFail "T" [] sampleOrderMessage
    [Effect.crmCall (CrmCall.createOrUpdateOrder
      (Json.obj [("id", Json.str "O1")]))]
    "CRM upsert failed" rfl rfl (by decide)

/-- C2: when dispatch of a decoded, not-yet-processed message fails and
the incoming `retryCount` is at least `maxRetries - 1`, the pipeline
publishes the DLQ envelope (original fields plus `dlqReason` and
`dlqTimestamp`) to the DLQ, acknowledges the original delivery, and
records the message id in the ledger with status Failed and the error
detail; there is no republish to the primary queue (the only effects
besides the DLQ publish, the ack and the ledger write are CRM calls). -/
theorem exhausted_retries_route_to_dlq (cfg : Config)
    (crm : CrmCall → Except String Unit) (now : String) (ledger : Ledger)
    (m : RabbitMQMessage) (hEffs : List Effect) (e : String)
    (hdup : isMessageProcessed ledger m.messageId = false)
    (hfail : handleMessage crm m = (hEffs, Except.error e))
    (hmax : ¬ m.retryCount.getD 0 + 1 < cfg.maxRetries) :
    processMessage cfg crm now ledger (Delivery.parsed m) =
      (hEffs ++
        [Effect.publish cfg.dlq (dlqMessage m e now) true,
         Effect.ack,
         Effect.ledgerWrite m.messageId Status.failed (some e)],
       markMessageProcessed ledger m.messageId Status.failed (some e) now) ∧
    getMessageStatus
        (processMessage cfg crm now ledger (Delivery.parsed m)).2 m.messageId =
      some { messageId := m.messageId, processedAt := now,
             status := Status.failed, error := some e } ∧
    (∀ eff ∈ hEffs, ∃ c, eff = Effect.crmCall c) := by
  refine ⟨by simp [processMessage, hdup, hfail, hmax], ?_, ?_⟩
  · simp [processMessage, hdup, hfail, hmax, getMessageStatus,
      markMessageProcessed, List.lookup]
  · intro eff heff
    rcases handleMessage_effects_shape crm m with hs | ⟨c, hs⟩ <;>
      rw [hfail] at hs <;> simp at hs <;> rw [hs] at heff
    · cases heff
    · simp at heff
      exact ⟨c, heff⟩

/-- Witness for C2: the sample order message arriving with
`retryCount = 2` (`maxRetries - 1`) and a failing CRM adapter is routed
to the DLQ and recorded as Failed. -/
theorem exhausted_retries_route_to_dlq_witness :
    processMessage config crmFail "T"
        [] (Delivery.parsed { sampleOrderMessage with retryCount := some 2 }) =
      ([Effect.crmCall (CrmCall.createOrUpdateOrder
          (Json.obj [("id", Json.str "O1")]))] ++
        [Effect.publish config.dlq
          (dlqMessage { sampleOrderMessage with retryCount := some 2 }
            "CRM upsert failed" "T") true,
         Effect.ack,
         Effect.ledgerWrite "m1" Status.failed (some "CRM upsert failed")],
       markMessageProcessed [] "m1" Status.failed (some "CRM upsert failed") "T") ∧
    getMessageStatus
        (processMessage config crmFail "T" []
          (Delivery.parsed { sampleOrderMessage with retryCount := some 2 })).2
        "m1" =
      some { messageId := "m1", processedAt := "T",
             status := Status.failed, error := some "CRM upsert failed" } ∧
    (∀ eff ∈ [Effect.crmCall (CrmCall.createOrUpdateOrder
        (Json.obj [("id", Json.str "O1")]))], ∃ c, eff = Effect.crmCall c) :=
  exhausted_retries_route_to_dlq config crmFail "T" []
    { sampleOrderMessage with retryCount := some 2 }
    [Effect.crmCall (CrmCall.createOrUpdateOrder
      (Json.obj [("id", Json.str "O1")]))]
    "CRM upsert failed" rfl rfl (by decide)

/-- C10: the DLQ envelope carries the `retryCount` the final delivery
arrived with, unchanged (absent when it was absent): the incremented
value computed during the final retry decision is never written into the
envelope sent to the DLQ. -/
theorem dlq_envelope_keeps_incoming_retry_count (cfg : Config)
    (crm : CrmCall → Except String Unit) (now : String) (ledger : Ledger)
    (m : RabbitMQMessage) (hEffs : List Effect) (e : String)
    (hdup : isMessageProcessed ledger m.messageId = false)
    (hfail : handleMessage crm m = (hEffs, Except.error e))
    (hmax : ¬ m.retryCount.getD 0 + 1 < cfg.maxRetries) :
    (processMessage cfg crm now ledger (Delivery.parsed m)).1 =
      hEffs ++
        [Effect.publish cfg.dlq (dlqMessage m e now) true,
         Effect.ack,
         Effect.ledgerWrite m.messageId Status.failed (some e)] ∧
    jsonField (dlqMessage m e now) "retryCount" =
      m.retryCount.map (fun k => Json.num (Int.ofNat k)) := by
  constructor
  · simp [processMessage, hdup, hfail, hmax]
  · obtain ⟨id, ev, p, ts, rc⟩ := m
    cases rc <;> rfl

/-- Witness for C10: a message delivered with `retryCount = 2` whose
retries are exhausted is sent to the DLQ with `retryCount` still 2 in
the envelope. -/
theorem dlq_envelope_keeps_incoming_retry_count_witness :
    (processMessage config crmFail "T" []
        (Delivery.parsed { sampleOrderMessage with retryCount := some 2 })).1 =
      [Effect.crmCall (CrmCall.createOrUpdateOrder
        (Json.obj [("id", Json.str "O1")]))] ++
        [Effect.publish config.dlq
          (dlqMessage { sampleOrderMessage with retryCount := some 2 }
            "CRM upsert failed" "T") true,
         Effect.ack,
         Effect.ledgerWrite "m1" Status.failed (some "CRM upsert failed")] ∧
    jsonField
        (dlqMessage { sampleOrderMessage with retryCount := some 2 }
          "CRM upsert failed" "T") "retryCount" =
      (some 2 : Option Nat).map (fun k => Json.num (Int.ofNat k)) :=
  dlq_envelope_keeps_incoming_retry_count config crmFail "T" []
    { sampleOrderMessage with retryCount := some 2 }
    [Effect.crmCall (CrmCall.createOrUpdateOrder
      (Json.obj [("id", Json.str "O1")]))]
    "CRM upsert failed" rfl rfl (by decide)

/-- No queue publish ever originates inside the dispatch step. -/
theorem not_publish_mem_handleMessage (crm : CrmCall → Except String Unit)
    (m : RabbitMQMessage) (q : String) (b : Json) (p : Bool) :
    Effect.publish q b p ∉ (handleMessage crm m).1 := by
  rcases handleMessage_effects_shape crm m with hs | ⟨c, hs⟩ <;> rw [hs] <;> simp

/-- An event/payload mismatch (order event with no order payload, or
customer event with no customer payload) makes the dispatch step a
silent no-op: no CRM call and a successful outcome. -/
theorem handleMessage_mismatch (crm : CrmCall → Except String Unit)
    (m : RabbitMQMessage)
    (hmm : ((m.event = "CREATE_ORDER" ∨ m.event = "UPDATE_ORDER") ∧
              m.payload.order = none) ∨
           ((m.event = "CREATE_CUSTOMER" ∨ m.event = "UPDATE_CUSTOMER") ∧
              m.payload.customer = none)) :
    handleMessage crm m = ([], Except.ok ()) := by
  rcases hmm with ⟨hev, hp⟩ | ⟨hev, hp⟩
  · unfold handleMessage
    rw [if_pos hev, hp]
  · have hne : ¬(m.event = "CREATE_ORDER" ∨ m.event = "UPDATE_ORDER") := by
      rcases hev with h | h <;> rw [h] <;> decide
    unfold handleMessage
    rw [if_neg hne, if_pos hev, hp]

/-- Counterexample to C4: a decoded CREATE_ORDER message whose payload
carries no order object is not negatively acknowledged — the pipeline
records it as Success and acknowledges it. -/
theorem mismatch_message_is_acked_not_nacked :
    processMessage config crmOk "T" [] (Delivery.parsed mismatchMessage) =
      ([Effect.ledgerWrite "m2" Status.success none, Effect.ack],
       [("m2", { messageId := "m2", processedAt := "T",
                 status := Status.success, error := none })]) ∧
    Effect.nack false ∉
      (processMessage config crmOk "T" [] (Delivery.parsed mismatchMessage)).1 := by
  refine ⟨rfl, ?_⟩
  intro h
  have h2 : Effect.nack false ∈
      [Effect.ledgerWrite "m2" Status.success none, Effect.ack] := h
  simp at h2

/-- C4 (amended): a delivery with an unparsable body is negatively
acknowledged without requeue and never dispatched; a decoded message
with an event/payload mismatch is likewise never dispatched to the CRM
adapter, but it is acknowledged and recorded in the ledger as Success
rather than negatively acknowledged. -/
theorem nonconforming_message_behavior (cfg : Config)
    (crm : CrmCall → Except String Unit) (now : String) (ledger : Ledger)
    (m : RabbitMQMessage)
    (hdup : isMessageProcessed ledger m.messageId = false)
    (hmm : ((m.event = "CREATE_ORDER" ∨ m.event = "UPDATE_ORDER") ∧
              m.payload.order = none) ∨
           ((m.event = "CREATE_CUSTOMER" ∨ m.event = "UPDATE_CUSTOMER") ∧
              m.payload.customer = none)) :
    processMessage cfg crm now ledger Delivery.unparsable =
      ([Effect.nack false], ledger) ∧
    processMessage cfg crm now ledger (Delivery.parsed m) =
      ([Effect.ledgerWrite m.messageId Status.success none, Effect.ack],
       markMessageProcessed ledger m.messageId Status.success none now) := by
  refine ⟨rfl, ?_⟩
  simp [processMessage, hdup, handleMessage_mismatch crm m hmm]

/-- Witness for the amended C4 at the concrete mismatch message. -/
theorem nonconforming_message_behavior_witness :
    processMessage config crmOk "T" [] Delivery.unparsable =
      ([Effect.nack false], []) ∧
    processMessage config crmOk "T" [] (Delivery.parsed mismatchMessage) =
      ([Effect.ledgerWrite "m2" Status.success none, Effect.ack],
       markMessageProcessed [] "m2" Status.success none "T") :=
  nonconforming_message_behavior config crmOk "T" [] mismatchMessage rfl
    (Or.inl ⟨Or.inl rfl, rfl⟩)

/-- C6: any republish to the primary queue triggered by a delivery
carries `retryCount` exactly one above the value the delivery arrived
with (0 when absent) — strictly greater than it — and that new value is
still below the configured maximum. -/
theorem republish_retry_count_strictly_increases (cfg : Config)
    (crm : CrmCall → Except String Unit) (now : String) (ledger : Ledger)
    (m m' : RabbitMQMessage)
    (hq : cfg.dlq ≠ cfg.queue)
    (hpub : Effect.publish cfg.queue (encodeMessage m') true ∈
      (processMessage cfg crm now ledger (Delivery.parsed m)).1) :
    m'.retryCount = some (m.retryCount.getD 0 + 1) ∧
    m.retryCount.getD 0 < m.retryCount.getD 0 + 1 ∧
    m.retryCount.getD 0 + 1 < cfg.maxRetries := by
  by_cases hdup : isMessageProcessed ledger m.messageId
  · simp [processMessage, hdup] at hpub
  · cases hr : (handleMessage crm m).2 with
    | ok u =>
      simp [processMessage, hdup, hr] at hpub
      exact absurd hpub (not_publish_mem_handleMessage crm m _ _ _)
    | error e =>
      by_cases hc : m.retryCount.getD 0 + 1 < cfg.maxRetries
      · simp [processMessage, hdup, hr, hc] at hpub
        rcases hpub with hpub | hpub
        · exact absurd hpub (not_publish_mem_handleMessage crm m _ _ _)
        · have hm : m' = { m with retryCount := some (m.retryCount.getD 0 + 1) } :=
            encodeMessage_injective hpub
          refine ⟨by rw [hm], by omega, hc⟩
      · simp [processMessage, hdup, hr, hc] at hpub
        rcases hpub with hpub | hpub
        · exact absurd hpub (not_publish_mem_handleMessage crm m _ _ _)
        · exact absurd hpub.1.symm hq

/-- Witness for C6: the concrete retry republish of the sample order
message carries `retryCount = 1 = 0 + 1 < maxRetries`. -/
theorem republish_retry_count_strictly_increases_witness :
    ({ sampleOrderMessage with retryCount := some 1 } :
        RabbitMQMessage).retryCount =
      some (sampleOrderMessage.retryCount.getD 0 + 1) ∧
    sampleOrderMessage.retryCount.getD 0 <
      sampleOrderMessage.retryCount.getD 0 + 1 ∧
    sampleOrderMessage.retryCount.getD 0 + 1 < config.maxRetries :=
  republish_retry_count_strictly_increases config crmFail "T" []
    sampleOrderMessage { sampleOrderMessage with retryCount := some 1 }
    (by decide) (List.Mem.tail _ (List.Mem.head _))

/-- True of the channel acknowledgement effects (ack or nack). -/
def isAckEffect : Effect → Bool
  | .ack => true
  | .nack _ => true
  | _ => false

/-- True of queue publish effects. -/
def isPublishEffect : Effect → Bool
  | .publish _ _ _ => true
  | _ => false

/-- True of deduplication-ledger write effects. -/
def isLedgerWriteEffect : Effect → Bool
  | .ledgerWrite _ _ _ => true
  | _ => false

/-- A delivery reaches a terminal outcome (success or DLQ): it decodes,
is not a duplicate, and its dispatch either succeeds or fails with its
retries exhausted. -/
def reachesTerminal (cfg : Config) (crm : CrmCall → Except String Unit)
    (ledger : Ledger) (d : Delivery) : Bool :=
  match d with
  | .unparsable => false
  | .parsed m =>
    !isMessageProcessed ledger m.messageId &&
      (match (handleMessage crm m).2 with
       | .ok _ => true
       | .error _ => !decide (m.retryCount.getD 0 + 1 < cfg.maxRetries))

/-- C7: each delivery produces exactly one acknowledgement or negative
acknowledgement, at most one queue publish (so never both a retry
republish and a DLQ publish), and exactly one ledger write when and only
when the delivery reaches a terminal outcome (success or DLQ). -/
theorem side_effect_discipline (cfg : Config)
    (crm : CrmCall → Except String Unit) (now : String) (ledger : Ledger)
    (d : Delivery) :
    ((processMessage cfg crm now ledger d).1.filter isAckEffect).length = 1 ∧
    ((processMessage cfg crm now ledger d).1.filter isPublishEffect).length ≤ 1 ∧
    ((processMessage cfg crm now ledger d).1.filter isLedgerWriteEffect).length =
      (if reachesTerminal cfg crm ledger d then 1 else 0) := by
  cases d with
  | unparsable =>
    simp [processMessage, reachesTerminal, isAckEffect, isPublishEffect,
      isLedgerWriteEffect]
  | parsed m =>
    by_cases hdup : isMessageProcessed ledger m.messageId
    · simp [processMessage, reachesTerminal, hdup, isAckEffect,
        isPublishEffect, isLedgerWriteEffect]
    · cases hr : (handleMessage crm m).2 with
      | ok u =>
        rcases handleMessage_effects_shape crm m with hs | ⟨c, hs⟩ <;>
          simp [processMessage, reachesTerminal, hdup, hr, hs, isAckEffect,
            isPublishEffect, isLedgerWriteEffect, List.filter]
      | error e =>
        rcases handleMessage_effects_shape crm m with hs | ⟨c, hs⟩ <;>
          by_cases hc : m.retryCount.getD 0 + 1 < cfg.maxRetries <;>
            simp [processMessage, reachesTerminal, hdup, hr, hs, hc,
              isAckEffect, isPublishEffect, isLedgerWriteEffect, List.filter]

/-- The per-record constraint of the deduplication ledger: the error
detail is present exactly on Failed records. -/
def LedgerInv (ledger : Ledger) : Prop :=
  ∀ p ∈ ledger, (p.2.error.isSome = true ↔ p.2.status = Status.failed)

/-- One pipeline step: a configuration, a CRM adapter behaviour, the
timestamp of the terminal action, and the delivery processed. -/
structure StepInput where
  cfg : Config
  crm : CrmCall → Except String Unit
  now : String
  delivery : Delivery

/-- The ledger produced by running the pipeline over a sequence of
deliveries, starting from the empty ledger. -/
def runPipeline (steps : List StepInput) : Ledger :=
  steps.foldl (fun l s => (processMessage s.cfg s.crm s.now l s.delivery).2) []

/-- A ledger write with the error detail present iff the status is
Failed preserves the per-record constraint. -/
theorem markMessageProcessed_inv (ledger : Ledger) (messageId : String)
    (status : Status) (error : Option String) (now : String)
    (hinv : LedgerInv ledger)
    (hok : error.isSome = true ↔ status = Status.failed) :
    LedgerInv (markMessageProcessed ledger messageId status error now) := by
  intro p hp
  rcases List.mem_cons.mp hp with hp | hp
  · rw [hp]
    exact hok
  · exact hinv p (List.mem_filter.mp hp).1

/-- Processing any delivery preserves the per-record constraint: the
pipeline only ever writes (Success, no error) or (Failed, some error). -/
theorem processMessage_ledgerInv (cfg : Config)
    (crm : CrmCall → Except String Unit) (now : String) (ledger : Ledger)
    (d : Delivery) (hinv : LedgerInv ledger) :
    LedgerInv (processMessage cfg crm now ledger d).2 := by
  cases d with
  | unparsable => exact hinv
  | parsed m =>
    by_cases hdup : isMessageProcessed ledger m.messageId
    · simpa [processMessage, hdup] using hinv
    · cases hr : (handleMessage crm m).2 with
      | ok u =>
        have := markMessageProcessed_inv ledger m.messageId Status.success
          none now hinv (by simp)
        simpa [processMessage, hdup, hr] using this
      | error e =>
        by_cases hc : m.retryCount.getD 0 + 1 < cfg.maxRetries
        · simpa [processMessage, hdup, hr, hc] using hinv
        · have := markMessageProcessed_inv ledger m.messageId Status.failed
            (some e) now hinv (by simp)
          simpa [processMessage, hdup, hr, hc] using this

/-- C8: over every sequence of deliveries the pipeline processes, every
record stored in the deduplication ledger has its error detail present
if and only if its status is Failed. -/
theorem ledger_error_present_iff_failed (steps : List StepInput) :
    LedgerInv (runPipeline steps) := by
  have h : ∀ (rest : List StepInput) (l : Ledger), LedgerInv l →
      LedgerInv (rest.foldl
        (fun l s => (processMessage s.cfg s.crm s.now l s.delivery).2) l) := by
    intro rest
    induction rest with
    | nil => exact fun l hl => hl
    | cons s t ih =>
      intro l hl
      exact ih _ (processMessage_ledgerInv s.cfg s.crm s.now l s.delivery hl)
  exact h steps [] (fun p hp => absurd hp (List.not_mem_nil p))

end TestingDemo
